import Mathlib

set_option maxHeartbeats 1000000

/-!
Shallow embedding of `models/result.go` from the gophish repository: the
per-target `Result` record, its guarded status-transition handlers
(`HandleEmailSent`, `HandleEmailError`, `HandleEmailBackoff`,
`HandleEmailOpened`, `HandleClickedLink`, `HandleFormSubmit`,
`HandleEmailReport`), geolocation enrichment (`UpdateGeo`) and external
identifier generation (`GenerateId`).

External collaborators (the gorm database handle, the campaign event log,
the maxminddb reader, `crypto/rand`) are modelled as explicit environment
records supplying each call's outcome, so every handler becomes a pure
function from (environment, record) to an outcome that records the mutated
record, the events appended to the campaign log, whether `db.Save` was
reached, and the returned Go error (`none` = `nil`).
-/

/-- Errors surfaced by the external collaborators (gorm, encoding/json,
campaign event log, maxminddb). `result.go` treats them opaquely, so a
small enumeration suffices. -/
inductive GoErr where
  | recordNotFound
  | marshalErr
  | addEventErr
  | saveErr
  | lookupErr
  | nilIPErr
  | openErr
deriving DecidableEq, Repr

/-- Boolean success test for an external call's outcome. -/
def exOk {α : Type} : Except GoErr α → Bool
  | .ok _ => true
  | .error _ => false

/-- Modelled from the spec: the constant `EVENT_SENT` is defined outside
`result.go` (elsewhere in the models package); §6 of the spec fixes the
status / event-kind enumeration to `queued`, `sent`, `sending-error`,
`retry`, `opened`, `clicked`, `submitted-data`, `reported`. -/
def EVENT_SENT : String := "sent"

/-- Modelled from the spec: `EVENT_SENDING_ERROR`, the event kind recorded
on a send failure (spec §4.1 / §6). -/
def EVENT_SENDING_ERROR : String := "sending-error"

/-- Modelled from the spec: `ERROR`, the status stored by
`HandleEmailError`; per the spec's transition table MarkSendError stores
status `sending-error`. -/
def ERROR : String := "sending-error"

/-- Modelled from the spec: `STATUS_RETRY`, the status stored by
`HandleEmailBackoff` (spec §4.1: MarkBackoff stores `retry`). -/
def STATUS_RETRY : String := "retry"

/-- Modelled from the spec: `EVENT_OPENED` (spec §4.1 / §6). -/
def EVENT_OPENED : String := "opened"

/-- Modelled from the spec: `EVENT_CLICKED` (spec §4.1 / §6). -/
def EVENT_CLICKED : String := "clicked"

/-- Modelled from the spec: `EVENT_DATA_SUBMIT` (spec §4.1 / §6). -/
def EVENT_DATA_SUBMIT : String := "submitted-data"

/-- Modelled from the spec: `EVENT_REPORTED` (spec §4.1 / §6). -/
def EVENT_REPORTED : String := "reported"

/-- The `Result` struct of `result.go`: one row per (campaign, recipient).
`time.Time` values are modelled as `Int` timestamps; `float64` coordinates
as `Float` (they are only ever copied, never computed with). -/
structure Result where
  Id : Int
  CampaignId : Int
  UserId : Int
  RId : String
  Email : String
  FirstName : String
  LastName : String
  Position : String
  Status : String
  IP : String
  Latitude : Float
  Longitude : Float
  SendDate : Int
  Reported : Bool
  ModifiedDate : Int

/-- Modelled from the spec: the `Event` struct lives outside `result.go`;
spec §3 gives its attributes as recipient email, event kind, optional
JSON-encoded detail payload, and timestamp. -/
structure Event where
  Email : String
  Message : String
  Details : String
  Time : Int
deriving DecidableEq, Repr

/-- Environment of one transition call: the outcome of each external call
the handler makes, in source order. `getCampaign` is the result of
`GetCampaign(r.CampaignId, r.UserId)` (the campaign value itself is unused
beyond `AddEvent`, so `Unit` stands for it); `marshal` is the result of
`json.Marshal(details)` for the handler's non-nil details value;
`addEvent` is the result of `c.AddEvent(e)`; `eventTime` is the timestamp
`AddEvent` stamps on the event (modelled from the spec: EventRecorder
returns the recorded timestamp); `save` is `db.Save(r).Error`. -/
structure Env where
  getCampaign : Except GoErr Unit
  marshal : Except GoErr String
  addEvent : Except GoErr Unit
  eventTime : Int
  save : Except GoErr Unit

/-- The returned error of `db.Save(r).Error` (`none` = `nil`). -/
def saveRet (env : Env) : Option GoErr :=
  match env.save with
  | .ok _ => none
  | .error e => some e

/-- Outcome of `createEvent`: the returned `(*Event, error)` pair together
with the list of events actually appended to the campaign's log. -/
structure CreateEventOut where
  res : Except GoErr Event
  appended : List Event

/-- The event built by `createEvent` once campaign lookup and detail
marshalling have succeeded: `AddEvent` stamps the recorded timestamp and,
when it succeeds, appends the event to the campaign's log. The source
discards `AddEvent`'s result (`c.AddEvent(e)` with no error check), so the
returned pair is `(e, nil)` regardless. -/
def finishEvent (env : Env) (r : Result) (status detail : String) : CreateEventOut :=
  let e : Event := { Email := r.Email, Message := status, Details := detail,
                     Time := env.eventTime }
  { res := .ok e
    appended := match env.addEvent with
      | .ok _ => [e]
      | .error _ => [] }

/-- `Result.createEvent` from `result.go`: look up the owning campaign
(fail with its error if absent), marshal the details when non-nil (fail on
marshal error), then hand the event to `AddEvent` (result ignored).
`detailsPresent` models whether the Go caller passed `nil` details. -/
def createEvent (env : Env) (r : Result) (status : String) (detailsPresent : Bool) :
    CreateEventOut :=
  match env.getCampaign with
  | .error e => { res := .error e, appended := [] }
  | .ok _ =>
    match detailsPresent, env.marshal with
    | true, .error e => { res := .error e, appended := [] }
    | true, .ok dj => finishEvent env r status dj
    | false, _ => finishEvent env r status ""

/-- Observable outcome of one transition handler call: the record's
in-memory state on return, the events appended to the campaign log during
the call, whether `db.Save(r)` was reached, and the returned error. -/
structure TransitionOutcome where
  result : Result
  appended : List Event
  saved : Bool
  ret : Option GoErr

/-- `Result.HandleEmailSent`: record a `sent` event (nil details), set
status to `EVENT_SENT`, stamp `ModifiedDate`, save. -/
def HandleEmailSent (env : Env) (r : Result) : TransitionOutcome :=
  let ce := createEvent env r EVENT_SENT false
  match ce.res with
  | .error e => { result := r, appended := ce.appended, saved := false, ret := some e }
  | .ok event =>
    { result := { r with Status := EVENT_SENT, ModifiedDate := event.Time }
      appended := ce.appended, saved := true, ret := saveRet env }

/-- `Result.HandleEmailError`: record a `sending-error` event with an
`EventError` detail payload, set status to `ERROR`, stamp `ModifiedDate`,
save. -/
def HandleEmailError (env : Env) (r : Result) : TransitionOutcome :=
  let ce := createEvent env r EVENT_SENDING_ERROR true
  match ce.res with
  | .error e => { result := r, appended := ce.appended, saved := false, ret := some e }
  | .ok event =>
    { result := { r with Status := ERROR, ModifiedDate := event.Time }
      appended := ce.appended, saved := true, ret := saveRet env }

/-- `Result.HandleEmailBackoff`: record a `sending-error` event, set
status to `STATUS_RETRY`, set `SendDate` to the supplied next send time,
stamp `ModifiedDate`, save. -/
def HandleEmailBackoff (env : Env) (r : Result) (sendDate : Int) : TransitionOutcome :=
  let ce := createEvent env r EVENT_SENDING_ERROR true
  match ce.res with
  | .error e => { result := r, appended := ce.appended, saved := false, ret := some e }
  | .ok event =>
    { result := { r with Status := STATUS_RETRY, SendDate := sendDate,
                         ModifiedDate := event.Time }
      appended := ce.appended, saved := true, ret := saveRet env }

/-- `Result.HandleEmailOpened`: record an `opened` event; if the status is
already `clicked` or `submitted-data`, return nil without touching the
record; otherwise set status to `EVENT_OPENED`, stamp `ModifiedDate`, save. -/
def HandleEmailOpened (env : Env) (r : Result) : TransitionOutcome :=
  let ce := createEvent env r EVENT_OPENED true
  match ce.res with
  | .error e => { result := r, appended := ce.appended, saved := false, ret := some e }
  | .ok event =>
    if r.Status = EVENT_CLICKED ∨ r.Status = EVENT_DATA_SUBMIT then
      { result := r, appended := ce.appended, saved := false, ret := none }
    else
      { result := { r with Status := EVENT_OPENED, ModifiedDate := event.Time }
        appended := ce.appended, saved := true, ret := saveRet env }

/-- `Result.HandleClickedLink`: record a `clicked` event; if the status is
already `submitted-data`, return nil without touching the record;
otherwise set status to `EVENT_CLICKED`, stamp `ModifiedDate`, save. -/
def HandleClickedLink (env : Env) (r : Result) : TransitionOutcome :=
  let ce := createEvent env r EVENT_CLICKED true
  match ce.res with
  | .error e => { result := r, appended := ce.appended, saved := false, ret := some e }
  | .ok event =>
    if r.Status = EVENT_DATA_SUBMIT then
      { result := r, appended := ce.appended, saved := false, ret := none }
    else
      { result := { r with Status := EVENT_CLICKED, ModifiedDate := event.Time }
        appended := ce.appended, saved := true, ret := saveRet env }

/-- `Result.HandleFormSubmit`: record a `submitted-data` event, set status
to `EVENT_DATA_SUBMIT`, stamp `ModifiedDate`, save. -/
def HandleFormSubmit (env : Env) (r : Result) : TransitionOutcome :=
  let ce := createEvent env r EVENT_DATA_SUBMIT true
  match ce.res with
  | .error e => { result := r, appended := ce.appended, saved := false, ret := some e }
  | .ok event =>
    { result := { r with Status := EVENT_DATA_SUBMIT, ModifiedDate := event.Time }
      appended := ce.appended, saved := true, ret := saveRet env }

/-- `Result.HandleEmailReport`: record a `reported` event, set `Reported`
to `true` (status untouched), stamp `ModifiedDate`, save. -/
def HandleEmailReport (env : Env) (r : Result) : TransitionOutcome :=
  let ce := createEvent env r EVENT_REPORTED true
  match ce.res with
  | .error e => { result := r, appended := ce.appended, saved := false, ret := some e }
  | .ok event =>
    { result := { r with Reported := true, ModifiedDate := event.Time }
      appended := ce.appended, saved := true, ret := saveRet env }

/-- The `mmGeoPoint` location record looked up from the maxminddb dataset. -/
structure mmGeoPoint where
  Latitude : Float
  Longitude : Float

/-- Environment of one `UpdateGeo` call: `openResult` is the result of
`maxminddb.Open("static/db/geolite2-city.mmdb")`; `parseOk` models whether
`net.ParseIP(addr)` returned a non-nil IP for the supplied string;
`lookupResult` is the result of `mmdb.Lookup` on that parsed IP; `save` is
`db.Save(r).Error`. -/
structure GeoEnv where
  openResult : Except GoErr Unit
  parseOk : Bool
  lookupResult : Except GoErr mmGeoPoint
  save : Except GoErr Unit

/-- Outcome of `UpdateGeo`: either the process is terminated by
`log.Fatal` (the open-failure branch), or the call returns, carrying the
record's state, whether `db.Save` was reached, and the returned error. -/
inductive UpdateGeoOut where
  | fatal
  | ret (r : Result) (saved : Bool) (e : Option GoErr)

/-- `Result.UpdateGeo` from `result.go`: open the maxminddb dataset
(`log.Fatal` on failure — the process dies), parse the address, look it up
(`mmdb.Lookup` on a nil IP returns an error, modelled from the spec's
"fails with InvalidAddress if the string does not parse as an IP"; the
library rejects a nil IP), and on success copy `addr` and the coordinates
into the record and save it. A failed lookup returns before any field of
the record is touched. -/
def UpdateGeo (env : GeoEnv) (r : Result) (addr : String) : UpdateGeoOut :=
  match env.openResult with
  | .error _ => .fatal
  | .ok _ =>
    if env.parseOk = false then
      .ret r false (some .nilIPErr)
    else
      match env.lookupResult with
      | .error e => .ret r false (some e)
      | .ok city =>
        .ret { r with IP := addr, Latitude := city.Latitude,
                      Longitude := city.Longitude }
             true
             (match env.save with | .ok _ => none | .error e => some e)

/-- The `alphaNum` constant of `GenerateId`, as its list of characters. -/
def alphaNum : List Char :=
  "abcdefghijklmnopqrstuvwxyzABCDEFGHIJKLMNOPQRSTUVWXYZ0123456789".data

/-- Modelled from the spec: one call to
`rand.Int(rand.Reader, big.NewInt(62))` — the Go standard library's
contract is a uniformly random value in `[0, 62)` from a cryptographically
secure source, or an error. The draws a run makes are modelled as a stream
indexed by draw position; `none` models a failing draw. -/
def randDraw (randoms : Nat → Option (Fin 62)) (pos : Nat) : Option (Fin 62) :=
  randoms pos

/-- The inner loop of `GenerateId`: fill `n` key bytes from consecutive
random draws, indexing `alphaNum` with each drawn value (`getD` is total;
every draw is below 62 = `alphaNum.length`, so the default is never used).
A failing draw aborts the whole call, as the source returns `err`. -/
def genKey (randoms : Nat → Option (Fin 62)) (pos : Nat) : Nat → Option (List Char)
  | 0 => some []
  | n + 1 =>
    match randDraw randoms pos with
    | none => none
    | some idx =>
      match genKey randoms (pos + 1) n with
      | none => none
      | some rest => some (alphaNum.getD idx.val 'a' :: rest)

/-- Result of a `GenerateId` run: a generated identifier, an aborted run
(a `rand.Int` draw failed), or fuel exhaustion (the source's unbounded
`for` loop did not exit within the allotted iterations). -/
inductive GenOut where
  | ok (rid : String)
  | randFailed
  | outOfFuel
deriving DecidableEq, Repr

/-- The retry loop of `GenerateId`: generate a 7-character candidate, set
it as the record's `RId`, and query `results` for an existing row with
that `r_id`; the loop exits only when that query returns
`gorm.ErrRecordNotFound`. `found rid = true` models any other query
outcome (a row exists, or a different database error), which makes the
source loop again. `fuel` bounds the unbounded source loop for the
embedding. -/
def GenerateIdLoop (randoms : Nat → Option (Fin 62)) (found : String → Bool) :
    Nat → Nat → GenOut
  | _, 0 => .outOfFuel
  | pos, fuel + 1 =>
    match genKey randoms pos 7 with
    | none => .randFailed
    | some k =>
      let rid := String.mk k
      if found rid then GenerateIdLoop randoms found (pos + 7) fuel
      else .ok rid

/-- `Result.GenerateId` from `result.go`, starting at draw position 0. -/
def GenerateId (randoms : Nat → Option (Fin 62)) (found : String → Bool)
    (fuel : Nat) : GenOut :=
  GenerateIdLoop randoms found 0 fuel

/-- Funnel position of a status string, following the spec's funnel order
`queued → sent → opened → clicked → submitted-data`; the orthogonal
`sending-error` / `retry` states (and any other string) have no position. -/
def funnelIdx (s : String) : Option Nat :=
  if s = "queued" then some 0
  else if s = EVENT_SENT then some 1
  else if s = EVENT_OPENED then some 2
  else if s = EVENT_CLICKED then some 3
  else if s = EVENT_DATA_SUBMIT then some 4
  else none

/-- `funnelRegressB new old = true` iff both statuses have funnel
positions and `new` sits strictly earlier in the funnel than `old` — the
regression the spec's monotonicity invariant forbids. -/
def funnelRegressB (newSt oldSt : String) : Bool :=
  match funnelIdx newSt, funnelIdx oldSt with
  | some i, some j => i < j
  | _, _ => false

/-- Boolean success of a whole `createEvent` call: campaign lookup and
detail marshalling both succeed. -/
def createOk (env : Env) : Bool :=
  exOk env.getCampaign && exOk env.marshal

/-- `createOk` plus a successful `AddEvent` (the event really lands in the
campaign's log). -/
def envOk (env : Env) : Bool :=
  createOk env && exOk env.addEvent

/-- A concrete all-successful environment with event timestamp 5. -/
def okEnv : Env :=
  { getCampaign := .ok (), marshal := .ok "{}", addEvent := .ok ()
    eventTime := 5, save := .ok () }

/-- A concrete baseline record in the initial `queued` status. -/
def baseResult : Result :=
  { Id := 1, CampaignId := 2, UserId := 3, RId := "xyzabcd"
    Email := "target@example.com", FirstName := "Ada", LastName := "L"
    Position := "dev", Status := "queued", IP := "", Latitude := 0
    Longitude := 0, SendDate := 0, Reported := false, ModifiedDate := 0 }

/-- The baseline record already at status `opened`. -/
def rOpened : Result := { baseResult with Status := EVENT_OPENED }

/-- The baseline record already at status `clicked`. -/
def rClicked : Result := { baseResult with Status := EVENT_CLICKED }

/-- The baseline record already at status `submitted-data`. -/
def rSubmitted : Result := { baseResult with Status := EVENT_DATA_SUBMIT }

/-- The all-successful environment except that `AddEvent` fails. -/
def envAddFail : Env := { okEnv with addEvent := .error .addEventErr }

/-- The all-successful environment except that `GetCampaign` reports the
campaign absent. -/
def envNotFound : Env := { okEnv with getCampaign := .error .recordNotFound }

/-- A geo environment where everything succeeds and the dataset maps the
looked-up address to latitude 1.5, longitude 2.5. -/
def geoOkEnv : GeoEnv :=
  { openResult := .ok (), parseOk := true
    lookupResult := .ok { Latitude := 1.5, Longitude := 2.5 }, save := .ok () }

/-- A geo environment where the maxminddb dataset cannot be opened. -/
def geoOpenFailEnv : GeoEnv := { geoOkEnv with openResult := .error .openErr }

/-- A geo environment where the supplied string does not parse as an IP. -/
def geoBadParseEnv : GeoEnv := { geoOkEnv with parseOk := false }

/-- The record-and-return part of a transition outcome — everything the
caller observes apart from the campaign event log. -/
def visible (o : TransitionOutcome) : Result × Bool × Option GoErr :=
  (o.result, o.saved, o.ret)

/-- Elimination of `createOk`: campaign lookup returned `.ok ()` and the
marshal step returned some JSON string. -/
theorem createOk_elim (env : Env) (h : createOk env = true) :
    env.getCampaign = Except.ok () ∧ ∃ dj, env.marshal = Except.ok dj := by
  unfold createOk at h
  cases hc : env.getCampaign <;> cases hm : env.marshal <;>
    simp_all [exOk]

/-- `createEvent` on a failed campaign lookup: the error propagates and
nothing is appended. -/
theorem createEvent_notFound (env : Env) (r : Result) (st : String) (b : Bool)
    (ge : GoErr) (hc : env.getCampaign = Except.error ge) :
    createEvent env r st b = { res := .error ge, appended := [] } := by
  simp [createEvent, hc]

/-- `createEvent` with nil details after a successful campaign lookup. -/
theorem createEvent_ok_nil (env : Env) (r : Result) (st : String)
    (hc : env.getCampaign = Except.ok ()) :
    createEvent env r st false = finishEvent env r st "" := by
  simp [createEvent, hc]

/-- `createEvent` with non-nil details after successful campaign lookup
and marshalling. -/
theorem createEvent_ok_details (env : Env) (r : Result) (st dj : String)
    (hc : env.getCampaign = Except.ok ()) (hm : env.marshal = Except.ok dj) :
    createEvent env r st true = finishEvent env r st dj := by
  simp [createEvent, hc, hm]

/-- A status never regresses relative to itself. -/
theorem funnelRegressB_self (s : String) : funnelRegressB s s = false := by
  unfold funnelRegressB
  cases h : funnelIdx s <;> simp [Nat.lt_irrefl]

/-- Funnel positions are bounded by 4 (`submitted-data`). -/
theorem funnelIdx_le (s : String) (j : Nat) (h : funnelIdx s = some j) :
    j ≤ 4 := by
  unfold funnelIdx at h
  split_ifs at h <;> simp_all <;> omega

/-- A funnel position strictly above `opened` forces `clicked` or
`submitted-data`. -/
theorem funnelIdx_ge3 (s : String) (j : Nat) (h : funnelIdx s = some j)
    (hj : 3 ≤ j) : s = EVENT_CLICKED ∨ s = EVENT_DATA_SUBMIT := by
  unfold funnelIdx at h
  split_ifs at h with h1 h2 h3 h4 h5 <;> simp_all
  · omega
  · omega
  · omega

/-- A funnel position strictly above `clicked` forces `submitted-data`. -/
theorem funnelIdx_ge4 (s : String) (j : Nat) (h : funnelIdx s = some j)
    (hj : 4 ≤ j) : s = EVENT_DATA_SUBMIT := by
  unfold funnelIdx at h
  split_ifs at h with h1 h2 h3 h4 h5 <;> simp_all <;> omega

/-- Writing `opened` is never a funnel regression when the guard admitted
it (current status is neither `clicked` nor `submitted-data`). -/
theorem regress_to_opened (s : String) (h1 : s ≠ EVENT_CLICKED)
    (h2 : s ≠ EVENT_DATA_SUBMIT) : funnelRegressB EVENT_OPENED s = false := by
  unfold funnelRegressB
  have ho : funnelIdx EVENT_OPENED = some 2 := by decide
  rw [ho]
  cases hj : funnelIdx s with
  | none => rfl
  | some j =>
    by_cases h3 : 3 ≤ j
    · rcases funnelIdx_ge3 s j hj h3 with h | h <;> contradiction
    · simp
      omega

/-- Writing `clicked` is never a funnel regression when the guard admitted
it (current status is not `submitted-data`). -/
theorem regress_to_clicked (s : String) (h2 : s ≠ EVENT_DATA_SUBMIT) :
    funnelRegressB EVENT_CLICKED s = false := by
  unfold funnelRegressB
  have ho : funnelIdx EVENT_CLICKED = some 3 := by decide
  rw [ho]
  cases hj : funnelIdx s with
  | none => rfl
  | some j =>
    by_cases h4 : 4 ≤ j
    · exact absurd (funnelIdx_ge4 s j hj h4) h2
    · simp
      omega

/-- Writing `submitted-data` (the funnel maximum) is never a regression. -/
theorem regress_to_submit (s : String) :
    funnelRegressB EVENT_DATA_SUBMIT s = false := by
  unfold funnelRegressB
  have ho : funnelIdx EVENT_DATA_SUBMIT = some 4 := by decide
  rw [ho]
  cases hj : funnelIdx s with
  | none => rfl
  | some j =>
    have := funnelIdx_le s j hj
    simp
    omega

/-- The orthogonal `sending-error` status has no funnel position, so
writing it is never a funnel regression. -/
theorem regress_to_error (s : String) : funnelRegressB ERROR s = false := by
  unfold funnelRegressB
  have ho : funnelIdx ERROR = none := by decide
  rw [ho]

/-- The orthogonal `retry` status has no funnel position, so writing it is
never a funnel regression. -/
theorem regress_to_retry (s : String) :
    funnelRegressB STATUS_RETRY s = false := by
  unfold funnelRegressB
  have ho : funnelIdx STATUS_RETRY = none := by decide
  rw [ho]

/-- `HandleEmailOpened` never regresses the funnel status: either the call
fails before mutating, the guard leaves the record untouched, or the guard
admitted the `opened` write. -/
theorem opened_no_regress (env : Env) (r : Result) :
    funnelRegressB (HandleEmailOpened env r).result.Status r.Status = false := by
  unfold HandleEmailOpened
  cases hc : env.getCampaign with
  | error e => simp [createEvent, hc, funnelRegressB_self]
  | ok u =>
    cases hm : env.marshal with
    | error e => simp [createEvent, hc, hm, funnelRegressB_self]
    | ok dj =>
      simp only [createEvent, hc, hm, finishEvent]
      by_cases hg : r.Status = EVENT_CLICKED ∨ r.Status = EVENT_DATA_SUBMIT
      · simp [hg, funnelRegressB_self]
      · push_neg at hg
        simp [hg]
        exact regress_to_opened r.Status hg.1 hg.2

/-- `HandleClickedLink` never regresses the funnel status. -/
theorem clicked_no_regress (env : Env) (r : Result) :
    funnelRegressB (HandleClickedLink env r).result.Status r.Status = false := by
  unfold HandleClickedLink
  cases hc : env.getCampaign with
  | error e => simp [createEvent, hc, funnelRegressB_self]
  | ok u =>
    cases hm : env.marshal with
    | error e => simp [createEvent, hc, hm, funnelRegressB_self]
    | ok dj =>
      simp only [createEvent, hc, hm, finishEvent]
      by_cases hg : r.Status = EVENT_DATA_SUBMIT
      · simp [hg, funnelRegressB_self]
      · simp [hg]
        exact regress_to_clicked r.Status hg

/-- `HandleFormSubmit` never regresses the funnel status (it writes the
funnel maximum). -/
theorem submit_no_regress (env : Env) (r : Result) :
    funnelRegressB (HandleFormSubmit env r).result.Status r.Status = false := by
  unfold HandleFormSubmit
  cases hc : env.getCampaign with
  | error e => simp [createEvent, hc, funnelRegressB_self]
  | ok u =>
    cases hm : env.marshal with
    | error e => simp [createEvent, hc, hm, funnelRegressB_self]
    | ok dj =>
      simp only [createEvent, hc, hm, finishEvent]
      simp [regress_to_submit]

/-- `HandleEmailReport` never regresses the funnel status (it never writes
the status at all). -/
theorem report_no_regress (env : Env) (r : Result) :
    funnelRegressB (HandleEmailReport env r).result.Status r.Status = false := by
  unfold HandleEmailReport
  cases hc : env.getCampaign with
  | error e => simp [createEvent, hc, funnelRegressB_self]
  | ok u =>
    cases hm : env.marshal with
    | error e => simp [createEvent, hc, hm, funnelRegressB_self]
    | ok dj =>
      simp only [createEvent, hc, hm, finishEvent]
      simp [funnelRegressB_self]

/-- `HandleEmailError` only moves to the orthogonal `sending-error`
status, which has no funnel position. -/
theorem error_no_regress (env : Env) (r : Result) :
    funnelRegressB (HandleEmailError env r).result.Status r.Status = false := by
  unfold HandleEmailError
  cases hc : env.getCampaign with
  | error e => simp [createEvent, hc, funnelRegressB_self]
  | ok u =>
    cases hm : env.marshal with
    | error e => simp [createEvent, hc, hm, funnelRegressB_self]
    | ok dj =>
      simp only [createEvent, hc, hm, finishEvent]
      simp [regress_to_error]

/-- `HandleEmailBackoff` only moves to the orthogonal `retry` status,
which has no funnel position. -/
theorem backoff_no_regress (env : Env) (r : Result) (t : Int) :
    funnelRegressB (HandleEmailBackoff env r t).result.Status r.Status = false := by
  unfold HandleEmailBackoff
  cases hc : env.getCampaign with
  | error e => simp [createEvent, hc, funnelRegressB_self]
  | ok u =>
    cases hm : env.marshal with
    | error e => simp [createEvent, hc, hm, funnelRegressB_self]
    | ok dj =>
      simp only [createEvent, hc, hm, finishEvent]
      simp [regress_to_retry]

/-- Characterization of `HandleEmailSent` when the campaign lookup
succeeds. -/
theorem HandleEmailSent_ok (env : Env) (r : Result)
    (hc : env.getCampaign = Except.ok ()) :
    HandleEmailSent env r =
      { result := { r with Status := EVENT_SENT, ModifiedDate := env.eventTime }
        appended := (finishEvent env r EVENT_SENT "").appended
        saved := true, ret := saveRet env } := by
  unfold HandleEmailSent
  rw [createEvent_ok_nil env r EVENT_SENT hc]
  rfl

/-- Characterization of `HandleEmailError` when campaign lookup and
marshalling succeed. -/
theorem HandleEmailError_ok (env : Env) (r : Result) (dj : String)
    (hc : env.getCampaign = Except.ok ()) (hm : env.marshal = Except.ok dj) :
    HandleEmailError env r =
      { result := { r with Status := ERROR, ModifiedDate := env.eventTime }
        appended := (finishEvent env r EVENT_SENDING_ERROR dj).appended
        saved := true, ret := saveRet env } := by
  unfold HandleEmailError
  rw [createEvent_ok_details env r EVENT_SENDING_ERROR dj hc hm]
  rfl

/-- Characterization of `HandleEmailBackoff` when campaign lookup and
marshalling succeed. -/
theorem HandleEmailBackoff_ok (env : Env) (r : Result) (t : Int) (dj : String)
    (hc : env.getCampaign = Except.ok ()) (hm : env.marshal = Except.ok dj) :
    HandleEmailBackoff env r t =
      { result := { r with Status := STATUS_RETRY, SendDate := t,
                           ModifiedDate := env.eventTime }
        appended := (finishEvent env r EVENT_SENDING_ERROR dj).appended
        saved := true, ret := saveRet env } := by
  unfold HandleEmailBackoff
  rw [createEvent_ok_details env r EVENT_SENDING_ERROR dj hc hm]
  rfl

/-- Characterization of `HandleEmailOpened` when campaign lookup and
marshalling succeed: guarded when the status is already `clicked` or
`submitted-data`, a status write otherwise. -/
theorem HandleEmailOpened_ok (env : Env) (r : Result) (dj : String)
    (hc : env.getCampaign = Except.ok ()) (hm : env.marshal = Except.ok dj) :
    HandleEmailOpened env r =
      if r.Status = EVENT_CLICKED ∨ r.Status = EVENT_DATA_SUBMIT then
        { result := r, appended := (finishEvent env r EVENT_OPENED dj).appended
          saved := false, ret := none }
      else
        { result := { r with Status := EVENT_OPENED, ModifiedDate := env.eventTime }
          appended := (finishEvent env r EVENT_OPENED dj).appended
          saved := true, ret := saveRet env } := by
  unfold HandleEmailOpened
  rw [createEvent_ok_details env r EVENT_OPENED dj hc hm]
  rfl

/-- Characterization of `HandleClickedLink` when campaign lookup and
marshalling succeed: guarded when the status is already `submitted-data`,
a status write otherwise. -/
theorem HandleClickedLink_ok (env : Env) (r : Result) (dj : String)
    (hc : env.getCampaign = Except.ok ()) (hm : env.marshal = Except.ok dj) :
    HandleClickedLink env r =
      if r.Status = EVENT_DATA_SUBMIT then
        { result := r, appended := (finishEvent env r EVENT_CLICKED dj).appended
          saved := false, ret := none }
      else
        { result := { r with Status := EVENT_CLICKED, ModifiedDate := env.eventTime }
          appended := (finishEvent env r EVENT_CLICKED dj).appended
          saved := true, ret := saveRet env } := by
  unfold HandleClickedLink
  rw [createEvent_ok_details env r EVENT_CLICKED dj hc hm]
  rfl

/-- Characterization of `HandleFormSubmit` when campaign lookup and
marshalling succeed. -/
theorem HandleFormSubmit_ok (env : Env) (r : Result) (dj : String)
    (hc : env.getCampaign = Except.ok ()) (hm : env.marshal = Except.ok dj) :
    HandleFormSubmit env r =
      { result := { r with Status := EVENT_DATA_SUBMIT, ModifiedDate := env.eventTime }
        appended := (finishEvent env r EVENT_DATA_SUBMIT dj).appended
        saved := true, ret := saveRet env } := by
  unfold HandleFormSubmit
  rw [createEvent_ok_details env r EVENT_DATA_SUBMIT dj hc hm]
  rfl

/-- Characterization of `HandleEmailReport` when campaign lookup and
marshalling succeed: `Reported` is set, `Status` untouched. -/
theorem HandleEmailReport_ok (env : Env) (r : Result) (dj : String)
    (hc : env.getCampaign = Except.ok ()) (hm : env.marshal = Except.ok dj) :
    HandleEmailReport env r =
      { result := { r with Reported := true, ModifiedDate := env.eventTime }
        appended := (finishEvent env r EVENT_REPORTED dj).appended
        saved := true, ret := saveRet env } := by
  unfold HandleEmailReport
  rw [createEvent_ok_details env r EVENT_REPORTED dj hc hm]
  rfl

/-- The events appended by `finishEvent` when `AddEvent` succeeds. -/
theorem finishEvent_appended_ok (env : Env) (r : Result) (st d : String)
    (ha : env.addEvent = Except.ok ()) :
    (finishEvent env r st d).appended =
      [{ Email := r.Email, Message := st, Details := d, Time := env.eventTime }] := by
  simp [finishEvent, ha]

/-- C1 counterexample: a record whose status is `opened` is moved back to
`sent` by `HandleEmailSent` — an earlier-funnel transition that the claim
says must leave the stored status unchanged, yet the call succeeds and
regresses the funnel status. -/
theorem C1_counterexample :
    rOpened.Status = EVENT_OPENED ∧
    (HandleEmailSent okEnv rOpened).ret = none ∧
    (HandleEmailSent okEnv rOpened).result.Status = EVENT_SENT ∧
    funnelRegressB (HandleEmailSent okEnv rOpened).result.Status rOpened.Status
      = true := by
  decide

/-- C1 (amended): funnel-status monotonicity holds for every transition
operation except `HandleEmailSent` — `HandleEmailOpened`,
`HandleClickedLink`, `HandleFormSubmit` and `HandleEmailReport` never move
`Status` to an earlier funnel position, and `HandleEmailError` /
`HandleEmailBackoff` only move into the orthogonal `sending-error` /
`retry` states; `HandleEmailSent`, by contrast, unconditionally writes
`sent` (see the counterexample). -/
theorem C1_no_regress_except_sent (env : Env) (r : Result) (t : Int) :
    funnelRegressB (HandleEmailOpened env r).result.Status r.Status = false ∧
    funnelRegressB (HandleClickedLink env r).result.Status r.Status = false ∧
    funnelRegressB (HandleFormSubmit env r).result.Status r.Status = false ∧
    funnelRegressB (HandleEmailReport env r).result.Status r.Status = false ∧
    funnelRegressB (HandleEmailError env r).result.Status r.Status = false ∧
    funnelRegressB (HandleEmailBackoff env r t).result.Status r.Status = false :=
  ⟨opened_no_regress env r, clicked_no_regress env r, submit_no_regress env r,
   report_no_regress env r, error_no_regress env r, backoff_no_regress env r t⟩

/-- C2: `HandleEmailError` sets the record's status to `sending-error`; a
subsequent `HandleEmailBackoff` sets status to `retry` and updates
`SendDate` to the supplied next send time; a subsequent `HandleEmailSent`
on the same record sets status to `sent` — no guard blocks forward
movement out of `sending-error` / `retry` into `sent`. -/
theorem C2_error_retry_sent (e1 e2 e3 : Env) (r : Result) (t : Int)
    (h1 : createOk e1 = true) (h2 : createOk e2 = true)
    (h3 : e3.getCampaign = Except.ok ()) :
    (HandleEmailError e1 r).result.Status = ERROR ∧
    (HandleEmailBackoff e2 (HandleEmailError e1 r).result t).result.Status
      = STATUS_RETRY ∧
    (HandleEmailBackoff e2 (HandleEmailError e1 r).result t).result.SendDate = t ∧
    (HandleEmailSent e3
        (HandleEmailBackoff e2 (HandleEmailError e1 r).result t).result).result.Status
      = EVENT_SENT := by
  obtain ⟨hc1, dj1, hm1⟩ := createOk_elim e1 h1
  obtain ⟨hc2, dj2, hm2⟩ := createOk_elim e2 h2
  rw [HandleEmailError_ok e1 r dj1 hc1 hm1]
  rw [HandleEmailBackoff_ok e2 _ t dj2 hc2 hm2]
  rw [HandleEmailSent_ok e3 _ h3]
  exact ⟨rfl, rfl, rfl, rfl⟩

/-- C2 witness: the scenario at a concrete record and all-successful
environments. -/
theorem C2_error_retry_sent_witness :
    (HandleEmailError okEnv baseResult).result.Status = ERROR ∧
    (HandleEmailBackoff okEnv (HandleEmailError okEnv baseResult).result 42).result.Status
      = STATUS_RETRY ∧
    (HandleEmailBackoff okEnv (HandleEmailError okEnv baseResult).result 42).result.SendDate
      = 42 ∧
    (HandleEmailSent okEnv
        (HandleEmailBackoff okEnv (HandleEmailError okEnv baseResult).result 42).result).result.Status
      = EVENT_SENT :=
  C2_error_retry_sent okEnv okEnv okEnv baseResult 42 (by decide) (by decide) rfl

/-- C3: `HandleEmailOpened` leaves `Status` unchanged (returning nil) when
the current status is `clicked` or `submitted-data` and otherwise writes
`opened`; `HandleClickedLink` leaves `Status` unchanged (returning nil)
when the current status is `submitted-data` and otherwise writes
`clicked`. -/
theorem C3_open_click_guards (env : Env) (r : Result)
    (h : createOk env = true) :
    ((r.Status = EVENT_CLICKED ∨ r.Status = EVENT_DATA_SUBMIT) →
      (HandleEmailOpened env r).result.Status = r.Status ∧
      (HandleEmailOpened env r).ret = none) ∧
    (¬(r.Status = EVENT_CLICKED ∨ r.Status = EVENT_DATA_SUBMIT) →
      (HandleEmailOpened env r).result.Status = EVENT_OPENED) ∧
    (r.Status = EVENT_DATA_SUBMIT →
      (HandleClickedLink env r).result.Status = r.Status ∧
      (HandleClickedLink env r).ret = none) ∧
    (r.Status ≠ EVENT_DATA_SUBMIT →
      (HandleClickedLink env r).result.Status = EVENT_CLICKED) := by
  obtain ⟨hc, dj, hm⟩ := createOk_elim env h
  rw [HandleEmailOpened_ok env r dj hc hm, HandleClickedLink_ok env r dj hc hm]
  refine ⟨fun hg => ?_, fun hg => ?_, fun hg => ?_, fun hg => ?_⟩
  · simp [hg]
  · simp [hg]
  · simp [hg]
  · simp [hg]

/-- C3 witness: the guards at concrete records (status `clicked` for the
open guard, `submitted-data` for the click guard) in the all-successful
environment. -/
theorem C3_open_click_guards_witness :
    ((HandleEmailOpened okEnv rClicked).result.Status = rClicked.Status ∧
      (HandleEmailOpened okEnv rClicked).ret = none) ∧
    ((HandleClickedLink okEnv rSubmitted).result.Status = rSubmitted.Status ∧
      (HandleClickedLink okEnv rSubmitted).ret = none) :=
  ⟨(C3_open_click_guards okEnv rClicked (by decide)).1 (Or.inl rfl),
   (C3_open_click_guards okEnv rSubmitted (by decide)).2.2.1 rfl⟩

/-- `HandleEmailSent` ignores `AddEvent`'s outcome: record, save and
return value are unchanged by it. -/
theorem sent_addEvent_frame (env : Env) (a : Except GoErr Unit) (r : Result) :
    visible (HandleEmailSent { env with addEvent := a } r)
      = visible (HandleEmailSent env r) := by
  cases hc : env.getCampaign with
  | error e => simp [HandleEmailSent, createEvent, hc, visible]
  | ok u => simp [HandleEmailSent, createEvent, hc, finishEvent, visible, saveRet]

/-- `HandleEmailError` ignores `AddEvent`'s outcome. -/
theorem error_addEvent_frame (env : Env) (a : Except GoErr Unit) (r : Result) :
    visible (HandleEmailError { env with addEvent := a } r)
      = visible (HandleEmailError env r) := by
  cases hc : env.getCampaign with
  | error e => simp [HandleEmailError, createEvent, hc, visible]
  | ok u =>
    cases hm : env.marshal <;>
      simp [HandleEmailError, createEvent, hc, hm, finishEvent, visible, saveRet]

/-- `HandleEmailBackoff` ignores `AddEvent`'s outcome. -/
theorem backoff_addEvent_frame (env : Env) (a : Except GoErr Unit) (r : Result)
    (t : Int) :
    visible (HandleEmailBackoff { env with addEvent := a } r t)
      = visible (HandleEmailBackoff env r t) := by
  cases hc : env.getCampaign with
  | error e => simp [HandleEmailBackoff, createEvent, hc, visible]
  | ok u =>
    cases hm : env.marshal <;>
      simp [HandleEmailBackoff, createEvent, hc, hm, finishEvent, visible, saveRet]

/-- `HandleEmailOpened` ignores `AddEvent`'s outcome. -/
theorem opened_addEvent_frame (env : Env) (a : Except GoErr Unit) (r : Result) :
    visible (HandleEmailOpened { env with addEvent := a } r)
      = visible (HandleEmailOpened env r) := by
  cases hc : env.getCampaign with
  | error e => simp [HandleEmailOpened, createEvent, hc, visible]
  | ok u =>
    cases hm : env.marshal with
    | error e => simp [HandleEmailOpened, createEvent, hc, hm, visible]
    | ok dj =>
      by_cases hg : r.Status = EVENT_CLICKED ∨ r.Status = EVENT_DATA_SUBMIT <;>
        simp [HandleEmailOpened, createEvent, hc, hm, finishEvent, visible,
              saveRet, hg]

/-- `HandleClickedLink` ignores `AddEvent`'s outcome. -/
theorem clicked_addEvent_frame (env : Env) (a : Except GoErr Unit) (r : Result) :
    visible (HandleClickedLink { env with addEvent := a } r)
      = visible (HandleClickedLink env r) := by
  cases hc : env.getCampaign with
  | error e => simp [HandleClickedLink, createEvent, hc, visible]
  | ok u =>
    cases hm : env.marshal with
    | error e => simp [HandleClickedLink, createEvent, hc, hm, visible]
    | ok dj =>
      by_cases hg : r.Status = EVENT_DATA_SUBMIT <;>
        simp [HandleClickedLink, createEvent, hc, hm, finishEvent, visible,
              saveRet, hg]

/-- `HandleFormSubmit` ignores `AddEvent`'s outcome. -/
theorem submit_addEvent_frame (env : Env) (a : Except GoErr Unit) (r : Result) :
    visible (HandleFormSubmit { env with addEvent := a } r)
      = visible (HandleFormSubmit env r) := by
  cases hc : env.getCampaign with
  | error e => simp [HandleFormSubmit, createEvent, hc, visible]
  | ok u =>
    cases hm : env.marshal <;>
      simp [HandleFormSubmit, createEvent, hc, hm, finishEvent, visible, saveRet]

/-- `HandleEmailReport` ignores `AddEvent`'s outcome. -/
theorem report_addEvent_frame (env : Env) (a : Except GoErr Unit) (r : Result) :
    visible (HandleEmailReport { env with addEvent := a } r)
      = visible (HandleEmailReport env r) := by
  cases hc : env.getCampaign with
  | error e => simp [HandleEmailReport, createEvent, hc, visible]
  | ok u =>
    cases hm : env.marshal <;>
      simp [HandleEmailReport, createEvent, hc, hm, finishEvent, visible, saveRet]

/-- C4 counterexample: with every other external call succeeding but
`AddEvent` failing, `HandleEmailSent` does not return the failure — it
returns nil, still reaches `db.Save`, and the event is lost from the log. -/
theorem C4_counterexample :
    envAddFail.addEvent = Except.error GoErr.addEventErr ∧
    (HandleEmailSent envAddFail baseResult).ret = none ∧
    (HandleEmailSent envAddFail baseResult).saved = true ∧
    (HandleEmailSent envAddFail baseResult).appended = [] :=
  ⟨rfl, rfl, rfl, rfl⟩

/-- C4 (amended): the source discards `Campaign.AddEvent`'s result, so an
event-append failure does not abort any transition operation — the
record mutation, the decision to save, and the returned error are exactly
as if the append had succeeded; only the campaign-lookup and
detail-marshalling failures abort before persisting. -/
theorem C4_addEvent_failure_ignored (env : Env) (a : Except GoErr Unit)
    (r : Result) (t : Int) :
    visible (HandleEmailSent { env with addEvent := a } r)
      = visible (HandleEmailSent env r) ∧
    visible (HandleEmailError { env with addEvent := a } r)
      = visible (HandleEmailError env r) ∧
    visible (HandleEmailBackoff { env with addEvent := a } r t)
      = visible (HandleEmailBackoff env r t) ∧
    visible (HandleEmailOpened { env with addEvent := a } r)
      = visible (HandleEmailOpened env r) ∧
    visible (HandleClickedLink { env with addEvent := a } r)
      = visible (HandleClickedLink env r) ∧
    visible (HandleFormSubmit { env with addEvent := a } r)
      = visible (HandleFormSubmit env r) ∧
    visible (HandleEmailReport { env with addEvent := a } r)
      = visible (HandleEmailReport env r) :=
  ⟨sent_addEvent_frame env a r, error_addEvent_frame env a r,
   backoff_addEvent_frame env a r t, opened_addEvent_frame env a r,
   clicked_addEvent_frame env a r, submit_addEvent_frame env a r,
   report_addEvent_frame env a r⟩

/-- C5 counterexample: when the maxminddb dataset cannot be opened,
`UpdateGeo` does not return a lookup-unavailable error to the caller — the
source calls `log.Fatal`, terminating the process. -/
theorem C5_counterexample :
    geoOpenFailEnv.openResult = Except.error GoErr.openErr ∧
    UpdateGeo geoOpenFailEnv baseResult "1.2.3.4" = UpdateGeoOut.fatal :=
  ⟨rfl, rfl⟩

/-- C5 (amended): given a valid IP address whose lookup succeeds,
`UpdateGeo` sets `IP` to the supplied string and `Latitude` / `Longitude`
to the looked-up coordinates and persists the record; given a string that
does not parse as an IP, it returns an error leaving `IP`, `Latitude`
and `Longitude` untouched (no save); a failed lookup likewise returns the
error with the record untouched; but if the lookup dataset cannot be
opened the process is terminated via `log.Fatal` instead of an error
being returned to the caller. -/
theorem C5_updateGeo_behavior (env : GeoEnv) (r : Result) (addr : String) :
    (∀ ge, env.openResult = Except.error ge → UpdateGeo env r addr = .fatal) ∧
    (env.openResult = Except.ok () → env.parseOk = false →
      UpdateGeo env r addr = .ret r false (some .nilIPErr)) ∧
    (∀ ge, env.openResult = Except.ok () → env.parseOk = true →
      env.lookupResult = Except.error ge →
      UpdateGeo env r addr = .ret r false (some ge)) ∧
    (∀ city, env.openResult = Except.ok () → env.parseOk = true →
      env.lookupResult = Except.ok city →
      UpdateGeo env r addr =
        .ret { r with IP := addr, Latitude := city.Latitude,
                      Longitude := city.Longitude }
          true (match env.save with | .ok _ => none | .error e => some e)) := by
  refine ⟨fun ge ho => ?_, fun ho hp => ?_, fun ge ho hp hl => ?_,
          fun city ho hp hl => ?_⟩
  · simp [UpdateGeo, ho]
  · simp [UpdateGeo, ho, hp]
  · simp [UpdateGeo, ho, hp, hl]
  · simp [UpdateGeo, ho, hp, hl]

/-- C5 witness: the success path at a concrete record, address and
dataset fixture (latitude 1.5, longitude 2.5). -/
theorem C5_updateGeo_behavior_witness :
    UpdateGeo geoOkEnv baseResult "1.2.3.4" =
      UpdateGeoOut.ret
        { baseResult with IP := "1.2.3.4", Latitude := 1.5, Longitude := 2.5 }
        true none :=
  (C5_updateGeo_behavior geoOkEnv baseResult "1.2.3.4").2.2.2
    { Latitude := 1.5, Longitude := 2.5 } rfl rfl rfl

/-- C6 counterexample: a guarded `HandleEmailOpened` (record already
`clicked`) returns success yet leaves `ModifiedDate` untouched (0), even
though the recorded event carries timestamp 5. -/
theorem C6_counterexample :
    (HandleEmailOpened okEnv rClicked).ret = none ∧
    okEnv.eventTime = 5 ∧
    (HandleEmailOpened okEnv rClicked).result.ModifiedDate = 0 ∧
    (HandleEmailOpened okEnv rClicked).appended.map Event.Time = [5] :=
  ⟨rfl, rfl, rfl, rfl⟩

/-- C6 (amended): every successful transition that actually writes the
record updates `ModifiedDate` to the recorded event's timestamp; the
guarded `HandleEmailOpened` / `HandleClickedLink` cases instead return
success with the whole record — `ModifiedDate` included — unchanged. -/
theorem C6_modified_date (env : Env) (r : Result) (t : Int)
    (h : createOk env = true) :
    (HandleEmailSent env r).result.ModifiedDate = env.eventTime ∧
    (HandleEmailError env r).result.ModifiedDate = env.eventTime ∧
    (HandleEmailBackoff env r t).result.ModifiedDate = env.eventTime ∧
    (HandleFormSubmit env r).result.ModifiedDate = env.eventTime ∧
    (HandleEmailReport env r).result.ModifiedDate = env.eventTime ∧
    (¬(r.Status = EVENT_CLICKED ∨ r.Status = EVENT_DATA_SUBMIT) →
      (HandleEmailOpened env r).result.ModifiedDate = env.eventTime) ∧
    ((r.Status = EVENT_CLICKED ∨ r.Status = EVENT_DATA_SUBMIT) →
      (HandleEmailOpened env r).result = r ∧
      (HandleEmailOpened env r).ret = none) ∧
    (r.Status ≠ EVENT_DATA_SUBMIT →
      (HandleClickedLink env r).result.ModifiedDate = env.eventTime) ∧
    (r.Status = EVENT_DATA_SUBMIT →
      (HandleClickedLink env r).result = r ∧
      (HandleClickedLink env r).ret = none) := by
  obtain ⟨hc, dj, hm⟩ := createOk_elim env h
  rw [HandleEmailSent_ok env r hc, HandleEmailError_ok env r dj hc hm,
      HandleEmailBackoff_ok env r t dj hc hm, HandleFormSubmit_ok env r dj hc hm,
      HandleEmailReport_ok env r dj hc hm, HandleEmailOpened_ok env r dj hc hm,
      HandleClickedLink_ok env r dj hc hm]
  refine ⟨rfl, rfl, rfl, rfl, rfl, fun hg => ?_, fun hg => ?_,
          fun hg => ?_, fun hg => ?_⟩
  · simp [hg]
  · simp [hg]
  · simp [hg]
  · simp [hg]

/-- C6 witness: the unguarded sent transition stamps `ModifiedDate` with
the event timestamp at a concrete record and environment. -/
theorem C6_modified_date_witness :
    (HandleEmailSent okEnv baseResult).result.ModifiedDate = okEnv.eventTime :=
  (C6_modified_date okEnv baseResult 0 (by decide)).1

/-- Elimination of `envOk`: campaign lookup succeeded, marshalling
returned some JSON string, and `AddEvent` succeeded. -/
theorem envOk_elim (env : Env) (h : envOk env = true) :
    env.getCampaign = Except.ok () ∧ (∃ dj, env.marshal = Except.ok dj) ∧
      env.addEvent = Except.ok () := by
  unfold envOk createOk at h
  cases hc : env.getCampaign <;> cases hm : env.marshal <;>
    cases ha : env.addEvent <;> simp_all [exOk]

/-- C7: `HandleEmailReport` sets `Reported` to true and leaves `Status`
unchanged in any status; calling it twice still yields `Reported = true`,
while each call appends its own `reported` event to the campaign log. -/
theorem C7_reported_independent (e1 e2 : Env) (r : Result)
    (h1 : envOk e1 = true) (h2 : envOk e2 = true) :
    (HandleEmailReport e1 r).result.Reported = true ∧
    (HandleEmailReport e1 r).result.Status = r.Status ∧
    (HandleEmailReport e2 (HandleEmailReport e1 r).result).result.Reported = true ∧
    (HandleEmailReport e2 (HandleEmailReport e1 r).result).result.Status
      = r.Status ∧
    (HandleEmailReport e1 r).appended.length = 1 ∧
    (HandleEmailReport e2 (HandleEmailReport e1 r).result).appended.length = 1 := by
  obtain ⟨hc1, ⟨dj1, hm1⟩, ha1⟩ := envOk_elim e1 h1
  obtain ⟨hc2, ⟨dj2, hm2⟩, ha2⟩ := envOk_elim e2 h2
  rw [HandleEmailReport_ok e1 r dj1 hc1 hm1]
  rw [HandleEmailReport_ok e2 _ dj2 hc2 hm2]
  refine ⟨rfl, rfl, rfl, rfl, ?_, ?_⟩
  · rw [finishEvent_appended_ok e1 r EVENT_REPORTED dj1 ha1]
    rfl
  · rw [finishEvent_appended_ok e2 _ EVENT_REPORTED dj2 ha2]
    rfl

/-- C7 witness: reporting twice at a concrete record keeps `Reported`
true, keeps the status, and appends one event per call. -/
theorem C7_reported_independent_witness :
    (HandleEmailReport okEnv (HandleEmailReport okEnv rOpened).result).result.Reported
      = true ∧
    (HandleEmailReport okEnv (HandleEmailReport okEnv rOpened).result).result.Status
      = rOpened.Status ∧
    (HandleEmailReport okEnv (HandleEmailReport okEnv rOpened).result).appended.length
      = 1 :=
  ⟨(C7_reported_independent okEnv okEnv rOpened (by decide) (by decide)).2.2.1,
   (C7_reported_independent okEnv okEnv rOpened (by decide) (by decide)).2.2.2.1,
   (C7_reported_independent okEnv okEnv rOpened (by decide) (by decide)).2.2.2.2.2⟩

/-- C8: every transition operation appends its event to the campaign's
event log, with its own event kind, even when the guard suppresses the
status write (the statement holds for every record, guarded or not). -/
theorem C8_event_history_complete (env : Env) (r : Result) (t : Int)
    (h : envOk env = true) :
    (HandleEmailSent env r).appended.map Event.Message = [EVENT_SENT] ∧
    (HandleEmailError env r).appended.map Event.Message
      = [EVENT_SENDING_ERROR] ∧
    (HandleEmailBackoff env r t).appended.map Event.Message
      = [EVENT_SENDING_ERROR] ∧
    (HandleEmailOpened env r).appended.map Event.Message = [EVENT_OPENED] ∧
    (HandleClickedLink env r).appended.map Event.Message = [EVENT_CLICKED] ∧
    (HandleFormSubmit env r).appended.map Event.Message
      = [EVENT_DATA_SUBMIT] ∧
    (HandleEmailReport env r).appended.map Event.Message = [EVENT_REPORTED] := by
  obtain ⟨hc, ⟨dj, hm⟩, ha⟩ := envOk_elim env h
  rw [HandleEmailSent_ok env r hc, HandleEmailError_ok env r dj hc hm,
      HandleEmailBackoff_ok env r t dj hc hm, HandleEmailOpened_ok env r dj hc hm,
      HandleClickedLink_ok env r dj hc hm, HandleFormSubmit_ok env r dj hc hm,
      HandleEmailReport_ok env r dj hc hm]
  refine ⟨?_, ?_, ?_, ?_, ?_, ?_, ?_⟩
  · simp [finishEvent_appended_ok env r EVENT_SENT "" ha]
  · simp [finishEvent_appended_ok env r EVENT_SENDING_ERROR dj ha]
  · simp [finishEvent_appended_ok env r EVENT_SENDING_ERROR dj ha]
  · by_cases hg : r.Status = EVENT_CLICKED ∨ r.Status = EVENT_DATA_SUBMIT <;>
      simp [hg, finishEvent_appended_ok env r EVENT_OPENED dj ha]
  · by_cases hg : r.Status = EVENT_DATA_SUBMIT <;>
      simp [hg, finishEvent_appended_ok env r EVENT_CLICKED dj ha]
  · simp [finishEvent_appended_ok env r EVENT_DATA_SUBMIT dj ha]
  · simp [finishEvent_appended_ok env r EVENT_REPORTED dj ha]

/-- C8 witness: a guarded `HandleEmailOpened` (record already `clicked`)
still appends its `opened` event. -/
theorem C8_event_history_complete_witness :
    (HandleEmailOpened okEnv rClicked).appended.map Event.Message
      = [EVENT_OPENED] :=
  (C8_event_history_complete okEnv rClicked 0 (by decide)).2.2.2.1

/-- C9: when the owning-campaign lookup fails, every transition operation
returns that error with the target record completely unchanged, nothing
appended to the event log, and `db.Save` never reached. -/
theorem C9_campaign_notfound_atomic (env : Env) (r : Result) (t : Int)
    (ge : GoErr) (hc : env.getCampaign = Except.error ge) :
    HandleEmailSent env r = ⟨r, [], false, some ge⟩ ∧
    HandleEmailError env r = ⟨r, [], false, some ge⟩ ∧
    HandleEmailBackoff env r t = ⟨r, [], false, some ge⟩ ∧
    HandleEmailOpened env r = ⟨r, [], false, some ge⟩ ∧
    HandleClickedLink env r = ⟨r, [], false, some ge⟩ ∧
    HandleFormSubmit env r = ⟨r, [], false, some ge⟩ ∧
    HandleEmailReport env r = ⟨r, [], false, some ge⟩ := by
  refine ⟨?_, ?_, ?_, ?_, ?_, ?_, ?_⟩ <;>
    simp [HandleEmailSent, HandleEmailError, HandleEmailBackoff,
          HandleEmailOpened, HandleClickedLink, HandleFormSubmit,
          HandleEmailReport, createEvent, hc]

/-- C9 witness: the absent-campaign outcome of `HandleEmailSent` at a
concrete record and environment. -/
theorem C9_campaign_notfound_atomic_witness :
    HandleEmailSent envNotFound baseResult
      = ⟨baseResult, [], false, some GoErr.recordNotFound⟩ :=
  (C9_campaign_notfound_atomic envNotFound baseResult 0 GoErr.recordNotFound
    rfl).1

/-- Every entry of `alphaNum` picked by an in-range index is a symbol of
the 62-character alphanumeric alphabet. -/
theorem alphaNum_getD_mem : ∀ idx : Fin 62, alphaNum.getD idx.val 'a' ∈ alphaNum := by
  decide

theorem genKey_length (randoms : Nat → Option (Fin 62)) :
    ∀ (n pos : Nat) (k : List Char), genKey randoms pos n = some k → k.length = n := by
  intro n
  induction n with
  | zero =>
    intro pos k h
    simp only [genKey] at h
    injection h with h
    rw [← h]
    rfl
  | succ n ih =>
    intro pos k h
    simp only [genKey, randDraw] at h
    cases hr : randoms pos with
    | none => rw [hr] at h; simp at h
    | some idx =>
      rw [hr] at h
      cases hg : genKey randoms (pos + 1) n with
      | none => rw [hg] at h; simp at h
      | some rest =>
        rw [hg] at h
        injection h with h
        rw [← h]
        simp [List.length_cons, ih (pos + 1) rest hg]

theorem genKey_mem (randoms : Nat → Option (Fin 62)) :
    ∀ (n pos : Nat) (k : List Char), genKey randoms pos n = some k →
      ∀ c ∈ k, c ∈ alphaNum := by
  intro n
  induction n with
  | zero =>
    intro pos k h
    simp only [genKey] at h
    injection h with h
    rw [← h]
    intro c hc
    exact absurd hc (List.not_mem_nil c)
  | succ n ih =>
    intro pos k h
    simp only [genKey, randDraw] at h
    cases hr : randoms pos with
    | none => rw [hr] at h; simp at h
    | some idx =>
      rw [hr] at h
      cases hg : genKey randoms (pos + 1) n with
      | none => rw [hg] at h; simp at h
      | some rest =>
        rw [hg] at h
        injection h with h
        rw [← h]
        intro c hc
        rcases List.mem_cons.mp hc with hc | hc
        · rw [hc]
          exact alphaNum_getD_mem idx
        · exact ih (pos + 1) rest hg c hc

theorem GenerateIdLoop_ok (randoms : Nat → Option (Fin 62)) (found : String → Bool) :
    ∀ (fuel pos : Nat) (s : String),
      GenerateIdLoop randoms found pos fuel = GenOut.ok s →
      s.length = 7 ∧ ∀ c ∈ s.data, c ∈ alphaNum := by
  intro fuel
  induction fuel with
  | zero => intro pos s h; simp [GenerateIdLoop] at h
  | succ fuel ih =>
    intro pos s h
    unfold GenerateIdLoop at h
    cases hk : genKey randoms pos 7 with
    | none => rw [hk] at h; simp at h
    | some k =>
      rw [hk] at h
      simp only at h
      by_cases hf : found (String.mk k)
      · rw [if_pos hf] at h
        exact ih (pos + 7) s h
      · rw [if_neg hf] at h
        injection h with h
        rw [← h]
        exact ⟨genKey_length randoms 7 pos k hk, genKey_mem randoms 7 pos k hk⟩

/-- C10: every identifier produced by a successful `GenerateId` run is
exactly 7 characters long and each character is drawn from the 62-symbol
alphanumeric alphabet `alphaNum`, whatever values the (uniform,
cryptographically secure) `rand.Int` draws took and whatever the
uniqueness-query answers were. -/
theorem C10_id_shape (randoms : Nat → Option (Fin 62)) (found : String → Bool)
    (fuel : Nat) (s : String) (h : GenerateId randoms found fuel = GenOut.ok s) :
    s.length = 7 ∧ ∀ c ∈ s.data, c ∈ alphaNum :=
  GenerateIdLoop_ok randoms found fuel 0 s h

/-- C10 witness: a concrete run (all draws 0, no collisions) produces
"aaaaaaa", which has length 7 and characters in the alphabet. -/
theorem C10_id_shape_witness :
    GenerateId (fun _ => some 0) (fun _ => false) 1 = GenOut.ok "aaaaaaa" ∧
    "aaaaaaa".length = 7 ∧ ∀ c ∈ "aaaaaaa".data, c ∈ alphaNum :=
  ⟨by decide,
   C10_id_shape (fun _ => some 0) (fun _ => false) 1 "aaaaaaa" (by decide)⟩
